import Mathlib

/-!
Shallow embedding of the command-relay and motion-refresh subsystem of the
vehicle control service (src/vehicle/comms/server.py and
src/vehicle/comms/navigator.py), together with theorems settling the claims
about it.

Modelling conventions:
- Channel values and JSON numbers are `Int` (Python ints from JSON).
- Calls into the external vehicle link (pymavlink) are recorded as a list of
  `LinkEvent`s in program order; telemetry reads are modelled as parameters.
- Python truthiness of an optional int or string is made explicit
  (`pyOr`, `methodTruthy`).
- `sys.exit(1)` is modelled by the `ExitOr.exit 1` outcome.
-/

namespace TecXotic

/-- Named logical-channel keyword arguments of `Navigator.send_rc`
(navigator.py lines 65-68); each defaults to `None`. -/
structure NamedCh where
  pitch : Option Int := none
  roll : Option Int := none
  throttle : Option Int := none
  yaw : Option Int := none
  forward : Option Int := none
  lateral : Option Int := none
  camera_pan : Option Int := none
  camera_tilt : Option Int := none
  lights1 : Option Int := none
  lights2 : Option Int := none
  video_switch : Option Int := none
deriving DecidableEq, Repr

/-- Python `named or positional` on an optional int: `None` and `0` are falsy,
so the positional value is used; any other int is returned as is. This is the
exact merge operator of `Navigator.send_rc` (navigator.py lines 82-95). -/
def pyOr : Option Int → Int → Int
  | none, p => p
  | some v, p => if v = 0 then p else v

/-- Positional argument `rcinI` (1-based `i`) of `Navigator.send_rc`: callers
supply a prefix of the 18 positional parameters, the rest default to 65535. -/
def posArg (args : List Int) (i : Nat) : Int := args.getD i 65535

/-- `Navigator.send_rc` (navigator.py lines 61-102): builds the 18-slot
channel frame from up to 18 positional values and the 11 named channels,
merging each named channel over its positional slot with Python `or`.
Slots 12-18 are positional only. The frame is then passed to
`rc_channels_override_send`; here the function returns the frame. -/
def send_rc (args : List Int) (n : NamedCh) : List Int :=
  [ pyOr n.pitch (posArg args 0),
    pyOr n.roll (posArg args 1),
    pyOr n.throttle (posArg args 2),
    pyOr n.yaw (posArg args 3),
    pyOr n.forward (posArg args 4),
    pyOr n.lateral (posArg args 5),
    pyOr n.camera_pan (posArg args 6),
    pyOr n.camera_tilt (posArg args 7),
    pyOr n.lights1 (posArg args 8),
    pyOr n.lights2 (posArg args 9),
    pyOr n.video_switch (posArg args 10),
    posArg args 11, posArg args 12, posArg args 13,
    posArg args 14, posArg args 15, posArg args 16, posArg args 17 ]

/-- `Navigator.clear_motion` (navigator.py lines 105-108): sends the 6 RC
motion channels at the stopped PWM value; returns the frame it sends. -/
def clear_motion (stopped_pwm : Int) : List Int :=
  send_rc (List.replicate 6 stopped_pwm) {}

/-- The neutral frame: the frame `clear_motion` sends with its default
`stopped_pwm = 1500` (six primary channels at 1500, the rest at the 65535
ignore sentinel). -/
def neutralFrame : List Int := clear_motion 1500

/-- Calls issued to the external vehicle link (pymavlink), in program order. -/
inductive LinkEvent where
  | rcFrame (frame : List Int)
  | manualControl (x y z r buttons : Int)
  | settle (ms : Nat)
  | armCall
  | disarmCall
  | setModeCall (id : Nat)
deriving DecidableEq, Repr

/-- A parsed inbound JSON command (server.py: the `commands` dict). A field
is `none` when absent from the message. -/
structure Command where
  arm : Option Int := none
  mode : Option String := none
  drive_method : Option String := none
  pitch : Option Int := none
  roll : Option Int := none
  throttle : Option Int := none
  yaw : Option Int := none
  forward : Option Int := none
  lateral : Option Int := none
  buttons : Option Int := none
deriving DecidableEq, Repr

/-- The vehicle-wide mutable state of the service: the armed flag and mode of
the navigator, and the module-level `last_motion` dict of server.py
(lines 13-16), whose `method` and `data` start as `None`. -/
structure VehicleState where
  armed : Bool
  mode : String
  lastMethod : Option String
  lastData : Option Command
deriving DecidableEq, Repr

/-- Modelled from the spec: `Navigator.status()` is called throughout
server.py but is absent from the source directory; per the spec, the
`navigator_status` it yields carries the current mode string and the
`is_armed` flag mirroring the hardware arm state. -/
def status (st : VehicleState) : String × Bool := (st.mode, st.armed)

/-- Initial state: `Navigator.__init__` disarms and sets mode MANUAL;
`last_motion` starts with `method = None`, `data = None`. -/
def initState : VehicleState :=
  { armed := false, mode := "MANUAL", lastMethod := none, lastData := none }

/-- Result dict of `handle_arm` (server.py lines 22-44): an `armed` flag and
either a `message` or an `error` string. -/
structure ArmResult where
  armed : Bool
  message : Option String
  error : Option String
deriving DecidableEq, Repr

/-- `handle_arm` (server.py lines 22-44). `arming` is the truthiness of the
`arm` field; `armOk` models whether `navigator.arm()` raises (the try/except
at lines 31-35). Returns the result dict, the new state and the link calls
issued, in order: `clear_motion` sends the neutral frame, `time.sleep(0.1)`
is the settle delay, then the arm or disarm primitive. -/
def handle_arm (arming : Bool) (armOk : Bool) (st : VehicleState) :
    ArmResult × VehicleState × List LinkEvent :=
  let is_armed := (status st).2
  if arming then
    if is_armed then
      ({ armed := true, message := some "Vehicle already armed", error := none }, st, [])
    else if armOk then
      ({ armed := true, message := some "motors armed", error := none },
       { st with armed := true },
       [.rcFrame neutralFrame, .settle 100, .armCall])
    else
      ({ armed := false, message := none, error := some "arming failed" },
       st,
       [.rcFrame neutralFrame, .settle 100, .armCall])
  else
    if !is_armed then
      ({ armed := false, message := some "Vehicle already disarmed", error := none }, st, [])
    else
      ({ armed := false, message := some "Motors disarmed", error := none },
       { st with armed := false },
       [.rcFrame neutralFrame, .settle 100, .disarmCall])

/-- Outcome of an operation that may terminate the whole process
(`sys.exit`). -/
inductive ExitOr (α : Type) where
  | exit (code : Nat)
  | ok (val : α)
deriving DecidableEq, Repr

/-- Python `str.upper()` on one character, restricted to ASCII (the mode
names in the mode table of the link are ASCII). -/
def pyUpperChar (c : Char) : Char :=
  if 'a' ≤ c ∧ c ≤ 'z' then Char.ofNat (c.toNat - 32) else c

/-- Python `str.upper()` (ASCII fragment): uppercase every character. -/
def pyUpper (s : String) : String := String.mk (s.data.map pyUpperChar)

/-- `Navigator.change_mode` (navigator.py lines 41-49): uppercases the mode
name, exits the process with status 1 when the name is absent from the mode
table, else issues `set_mode` with the mapped id. `table` models the
external `mode_mapping()` of the link. The stored mode becomes the
uppercased name (the last mode successfully requested). -/
def change_mode (table : List (String × Nat)) (m : String) (st : VehicleState) :
    ExitOr (VehicleState × List LinkEvent) :=
  match table.lookup (pyUpper m) with
  | none => .exit 1
  | some id => .ok ({ st with mode := pyUpper m }, [.setModeCall id])

/-- `handle_mode` (server.py lines 18-20): calls `change_mode` only when the
requested name differs from the current status mode. -/
def handle_mode (table : List (String × Nat)) (m : String) (st : VehicleState) :
    ExitOr (VehicleState × List LinkEvent) :=
  if m ≠ (status st).1 then change_mode table m st else .ok (st, [])

/-- Python truthiness of `last_motion["method"]`: `None` and the empty
string are falsy. -/
def methodTruthy : Option String → Bool
  | none => false
  | some s => !(s == "")

/-- The frame the refresh loop builds for an `rc_channels` intent
(server.py lines 110-115): `send_rc` applied positionally to the pitch,
roll, throttle and yaw fields of the stored command, each defaulting to
665535 when absent (`d.get(..., 665535)`). -/
def refreshRC (d : Command) : List Int :=
  send_rc [d.pitch.getD 665535, d.roll.getD 665535,
           d.throttle.getD 665535, d.yaw.getD 665535] {}

/-- One tick of `motion_loop` (server.py lines 96-117): when the status is
armed and `last_motion["method"]` is truthy, dispatch on the method and send
a manual-control or RC-override message; otherwise issue nothing and sleep.
(The state where the method is truthy but `data` is still `None` is
unreachable, since server.py sets both together; it is mapped to no call.) -/
def motionTick (st : VehicleState) : List LinkEvent :=
  if (status st).2 && methodTruthy st.lastMethod then
    match st.lastMethod, st.lastData with
    | some "manual", some d =>
        [.manualControl (d.pitch.getD 0) (d.roll.getD 0) (d.throttle.getD 0)
          (d.yaw.getD 0) (d.buttons.getD 0)]
    | some "rc_channels", some d => [.rcFrame (refreshRC d)]
    | _, _ => []
  else []

/-- One inbound websocket message of the `echo` handler: either text that
fails `json.loads` or a parsed command dict. -/
inductive Inbound where
  | malformed
  | valid (c : Command)
deriving DecidableEq, Repr

/-- One reply sent back on the websocket: either the status dict built at
server.py lines 67-72 or the invalid-JSON error reply of line 78. -/
inductive Reply where
  | statusReply (message_received : Bool) (arm_result : Option ArmResult)
      (mode : String) (is_armed : Bool) (thrusters_value : List Int)
  | invalidJSON
deriving DecidableEq, Repr

/-- The arm phase of one message (server.py lines 56-57): `handle_arm` runs
exactly when the `arm` field is present, with the truthiness of its value. -/
def armPhase (armOk : Bool) (c : Command) (st : VehicleState) :
    Option ArmResult × VehicleState × List LinkEvent :=
  match c.arm with
  | none => (none, st, [])
  | some a =>
    let res := handle_arm (a != 0) armOk st
    (some res.1, res.2.1, res.2.2)

/-- The state after the arm handling of a message; this is the state whose armed
flag the ingress checks before storing a drive intent. -/
def armAfter (armOk : Bool) (c : Command) (st : VehicleState) : VehicleState :=
  (armPhase armOk c st).2.1

/-- The mode phase of one message (server.py lines 59-60): `handle_mode` runs
exactly when the `mode` field is present. -/
def modePhase (table : List (String × Nat)) (c : Command) (st : VehicleState) :
    ExitOr (VehicleState × List LinkEvent) :=
  match c.mode with
  | none => .ok (st, [])
  | some m => handle_mode table m st

/-- The intent-store step of one message (server.py lines 62-65): when the
current status is armed and the command has a `drive_method` field, replace
`last_motion` with the new method and the whole command dict; otherwise
leave it untouched. -/
def storeIntent (c : Command) (st : VehicleState) : VehicleState :=
  if (status st).2 && c.drive_method.isSome then
    { st with lastMethod := c.drive_method, lastData := some c }
  else st

/-- Processing of one inbound message by `echo` (server.py lines 49-82):
malformed JSON is answered with the invalid-JSON reply and nothing else
happens; a parsed command goes through the arm phase, then the mode phase
(which may exit the process), then the intent-store step; finally the
status reply is built from the current status and the thruster telemetry
(an external blocking read, modelled by the `thr` parameter). -/
def processMessage (table : List (String × Nat)) (armOk : Bool)
    (thr : List Int) (msg : Inbound) (st : VehicleState) :
    ExitOr (Reply × VehicleState × List LinkEvent) :=
  match msg with
  | .malformed => .ok (.invalidJSON, st, [])
  | .valid c =>
    match modePhase table c (armPhase armOk c st).2.1 with
    | .exit n => .exit n
    | .ok (st2, evs2) =>
      .ok (.statusReply true (armPhase armOk c st).1
             (status (storeIntent c st2)).1 (status (storeIntent c st2)).2 thr,
           storeIntent c st2, (armPhase armOk c st).2.2 ++ evs2)

/-- Connection teardown (the `finally` block of `echo`, server.py lines
90-94, and identically the shutdown handler of `run`, lines 123-126):
`clear_motion` sends the neutral frame, then `disarm` is called
unconditionally. Both calls are synchronous, so no tick interleaves. -/
def teardown (st : VehicleState) : VehicleState × List LinkEvent :=
  ({ st with armed := false }, [.rcFrame neutralFrame, .disarmCall])

/-- Whether a link event is an actuator command (a channel-override frame or
a manual-control message), as opposed to arm/mode/settle traffic. -/
def isActuatorCmd : LinkEvent → Bool
  | .rcFrame _ => true
  | .manualControl _ _ _ _ _ => true
  | _ => false

/-- One client session of `echo`: process each inbound message in order
(accumulating replies and link calls), then run the teardown; a process
exit from mode handling aborts everything. -/
def echoLoop (table : List (String × Nat)) (armOk : Bool) (thr : List Int) :
    List Inbound → VehicleState → ExitOr (List Reply × VehicleState × List LinkEvent)
  | [], st =>
    let t := teardown st
    .ok ([], t.1, t.2)
  | m :: rest, st =>
    match processMessage table armOk thr m st with
    | .exit n => .exit n
    | .ok (r, st1, evs) =>
      match echoLoop table armOk thr rest st1 with
      | .exit n => .exit n
      | .ok (rs, st2, evs2) => .ok (r :: rs, st2, evs ++ evs2)

/-! Theorems about the embedded program. -/

/-- C2: the claim requires an explicitly supplied named channel value to
override the positional slot even when the value is 0; the code merges with
Python `or`, so the explicit named 0 is treated as unset and the positional
value wins. At `send_rc(1700, pitch=0)` the frame carries 1700 in the pitch
channel, not the named 0. -/
theorem sendRc_named_zero_loses_to_positional :
    (send_rc [1700] { pitch := some 0 })[0]? = some 1700 ∧
    (send_rc [1700] { pitch := some 0 })[0]? ≠ some 0 := by decide

/-- C3: the claim requires every channel not explicitly supplied to equal
the ignore sentinel 65535; on the refresh path, `motion_loop` fills absent
primary-axis fields with `d.get(..., 665535)` — a typo for the sentinel —
so with intent `roll = 1700` and no pitch field, the transmitted frame
carries 665535 (not 65535) in the unsupplied pitch channel. -/
theorem refresh_unset_channel_not_sentinel :
    motionTick { armed := true, mode := "MANUAL",
                 lastMethod := some "rc_channels",
                 lastData := some { drive_method := some "rc_channels",
                                    roll := some 1700 } } =
      [.rcFrame (refreshRC { drive_method := some "rc_channels",
                             roll := some 1700 })] ∧
    (Command.pitch { drive_method := some "rc_channels", roll := some 1700 }) = none ∧
    (refreshRC { drive_method := some "rc_channels", roll := some 1700 })[0]? = some 665535 ∧
    (refreshRC { drive_method := some "rc_channels", roll := some 1700 })[0]? ≠ some 65535 := by
  refine ⟨by decide, rfl, by decide, by decide⟩

/-- C9: for a stored `rc_channels` intent, the refresh tick transmits
exactly `refreshRC` of the stored command; that frame leaves channel slots
5 through 18 at the 65535 sentinel, and it depends only on the pitch, roll,
throttle and yaw fields of the intent — commands agreeing on those four
fields produce the same frame. -/
theorem refresh_uses_only_primary_axes (st : VehicleState) (d : Command)
    (h1 : st.armed = true) (h2 : st.lastMethod = some "rc_channels")
    (h3 : st.lastData = some d) :
    motionTick st = [.rcFrame (refreshRC d)] ∧
    (refreshRC d).drop 4 = List.replicate 14 65535 ∧
    (∀ d' : Command, d.pitch = d'.pitch → d.roll = d'.roll →
      d.throttle = d'.throttle → d.yaw = d'.yaw → refreshRC d = refreshRC d') := by
  refine ⟨?_, ?_, ?_⟩
  · simp [motionTick, status, methodTruthy, h1, h2, h3]
  · simp [refreshRC, send_rc, posArg, pyOr]
  · intro d' hp hr ht hy
    simp [refreshRC, hp, hr, ht, hy]

/-- Witness for C9 at a concrete armed state holding an rc_channels intent
with only `roll = 1700`, compared against a command adding unrelated
forward and lateral fields. -/
theorem refresh_uses_only_primary_axes_witness :
    motionTick { armed := true, mode := "MANUAL",
                 lastMethod := some "rc_channels",
                 lastData := some { drive_method := some "rc_channels",
                                    roll := some 1700 } } =
      [.rcFrame (refreshRC { drive_method := some "rc_channels",
                             roll := some 1700 })] ∧
    (refreshRC { drive_method := some "rc_channels",
                 roll := some 1700 }).drop 4 = List.replicate 14 65535 ∧
    (∀ d' : Command,
      (Command.pitch { drive_method := some "rc_channels", roll := some 1700 }) = d'.pitch →
      (Command.roll { drive_method := some "rc_channels", roll := some 1700 }) = d'.roll →
      (Command.throttle { drive_method := some "rc_channels", roll := some 1700 }) = d'.throttle →
      (Command.yaw { drive_method := some "rc_channels", roll := some 1700 }) = d'.yaw →
      refreshRC { drive_method := some "rc_channels", roll := some 1700 } = refreshRC d') :=
  refresh_uses_only_primary_axes _ _ rfl rfl rfl

/-- C1 counterexample: with the vehicle disarmed and a stored non-neutral
rc_channels intent, the refresh tick issues no link call at all — it does
not send the neutral frame the claim requires. -/
theorem tick_disarmed_no_neutral_frame_cex :
    motionTick { armed := false, mode := "MANUAL",
                 lastMethod := some "rc_channels",
                 lastData := some { drive_method := some "rc_channels",
                                    roll := some 1700 } } = [] ∧
    motionTick { armed := false, mode := "MANUAL",
                 lastMethod := some "rc_channels",
                 lastData := some { drive_method := some "rc_channels",
                                    roll := some 1700 } } ≠ [.rcFrame neutralFrame] := by
  decide

/-- C1 amended: on a tick where the vehicle is not armed or no drive intent
is stored, the refresh loop sends nothing at all to the vehicle link — in
particular never the previous non-neutral intent; the neutral frame is sent
by the disarm handler itself (its first link call), and the tick
immediately following a completed disarm sends nothing. -/
theorem tick_disarmed_or_no_intent_silent (st : VehicleState) (armOk : Bool) :
    (st.armed = false ∨ methodTruthy st.lastMethod = false → motionTick st = []) ∧
    (st.armed = true →
      (handle_arm false armOk st).2.2.head? = some (.rcFrame neutralFrame) ∧
      motionTick (handle_arm false armOk st).2.1 = []) := by
  constructor
  · intro h
    rcases h with h | h <;> simp [motionTick, status, h]
  · intro h
    refine ⟨by simp [handle_arm, status, h], ?_⟩
    simp [handle_arm, status, h, motionTick]

/-- Witness for C1 (amended) at an armed state with a stored non-neutral
rc_channels intent: the disarm handler leads with the neutral frame and the
following tick is silent; and at the same state with the armed flag cleared
the tick is silent. -/
theorem tick_disarmed_or_no_intent_silent_witness :
    motionTick { armed := false, mode := "MANUAL",
                 lastMethod := some "rc_channels",
                 lastData := some { drive_method := some "rc_channels",
                                    throttle := some 1900 } } = [] ∧
    ((handle_arm false true
        { armed := true, mode := "MANUAL",
          lastMethod := some "rc_channels",
          lastData := some { drive_method := some "rc_channels",
                             throttle := some 1900 } }).2.2.head? =
       some (.rcFrame neutralFrame) ∧
     motionTick (handle_arm false true
        { armed := true, mode := "MANUAL",
          lastMethod := some "rc_channels",
          lastData := some { drive_method := some "rc_channels",
                             throttle := some 1900 } }).2.1 = []) :=
  ⟨(tick_disarmed_or_no_intent_silent _ true).1 (Or.inl rfl),
   (tick_disarmed_or_no_intent_silent _ true).2 rfl⟩

/-- C4: an arm request handled while disarmed issues, in order, the neutral
frame, the settle delay, and only then the arm primitive; symmetrically a
disarm request handled while armed issues neutral frame, settle delay, then
the disarm primitive. The link toggle is therefore never invoked in such a
request without the neutral frame having been sent first. -/
theorem neutral_before_arm_toggle (st : VehicleState) (armOk : Bool) :
    (st.armed = false →
      (handle_arm true armOk st).2.2 =
        [.rcFrame neutralFrame, .settle 100, .armCall]) ∧
    (st.armed = true →
      (handle_arm false armOk st).2.2 =
        [.rcFrame neutralFrame, .settle 100, .disarmCall]) := by
  constructor <;> intro h <;> cases armOk <;> simp [handle_arm, status, h]

/-- Witness for C4: arming from the initial disarmed state and disarming
from an armed state. -/
theorem neutral_before_arm_toggle_witness :
    (handle_arm true true initState).2.2 =
      [.rcFrame neutralFrame, .settle 100, .armCall] ∧
    (handle_arm false true { initState with armed := true }).2.2 =
      [.rcFrame neutralFrame, .settle 100, .disarmCall] :=
  ⟨(neutral_before_arm_toggle initState true).1 rfl,
   (neutral_before_arm_toggle { initState with armed := true } true).2 rfl⟩

/-- C5: connection teardown (disconnect, per-connection error, or shutdown)
first sends the neutral frame — it is both the first link call and the
first actuator command of the teardown sequence — and leaves the vehicle
disarmed. -/
theorem teardown_neutral_then_disarmed (st : VehicleState) :
    (teardown st).2.head? = some (.rcFrame neutralFrame) ∧
    (teardown st).2.find? isActuatorCmd = some (.rcFrame neutralFrame) ∧
    (teardown st).1.armed = false := by
  refine ⟨rfl, ?_, rfl⟩
  simp [teardown, List.find?, isActuatorCmd]

/-- C6: an arm request while already armed returns the already-armed result
and issues no link call and no state change; a disarm request while already
disarmed returns the already-disarmed result and likewise touches nothing. -/
theorem already_armed_requests_noop (st : VehicleState) (armOk : Bool) :
    (st.armed = true →
      handle_arm true armOk st =
        ({ armed := true, message := some "Vehicle already armed",
           error := none }, st, [])) ∧
    (st.armed = false →
      handle_arm false armOk st =
        ({ armed := false, message := some "Vehicle already disarmed",
           error := none }, st, [])) := by
  constructor <;> intro h <;> simp [handle_arm, status, h]

/-- Witness for C6 at an armed state and at the initial disarmed state. -/
theorem already_armed_requests_noop_witness :
    handle_arm true true { initState with armed := true } =
      ({ armed := true, message := some "Vehicle already armed",
         error := none }, { initState with armed := true }, []) ∧
    handle_arm false true initState =
      ({ armed := false, message := some "Vehicle already disarmed",
         error := none }, initState, []) :=
  ⟨(already_armed_requests_noop { initState with armed := true } true).1 rfl,
   (already_armed_requests_noop initState true).2 rfl⟩

/-- C10: `change_mode` uppercases the requested name before the table
lookup, so requests whose names agree up to letter case behave identically;
and a name absent from the table after uppercasing terminates the process
with exit status 1 instead of returning a per-request error. -/
theorem change_mode_case_insensitive (table : List (String × Nat))
    (m m' : String) (st : VehicleState) (h : pyUpper m = pyUpper m') :
    change_mode table m st = change_mode table m' st ∧
    (table.lookup (pyUpper m) = none → change_mode table m st = .exit 1) := by
  constructor
  · unfold change_mode
    rw [h]
  · intro hn
    simp [change_mode, hn]

/-- Witness for C10: with a table containing only MANUAL, requesting
"manual" equals requesting "Manual", and requesting "stabilize" exits the
process with status 1. -/
theorem change_mode_case_insensitive_witness :
    change_mode [("MANUAL", 19)] "manual" initState =
      change_mode [("MANUAL", 19)] "Manual" initState ∧
    change_mode [("MANUAL", 19)] "stabilize" initState = .exit 1 :=
  ⟨(change_mode_case_insensitive [("MANUAL", 19)] "manual" "Manual" initState
      (by decide)).1,
   (change_mode_case_insensitive [("MANUAL", 19)] "stabilize" "stabilize"
      initState rfl).2 (by decide)⟩

/-- Helper: `handle_arm` never touches the stored motion intent. -/
theorem handle_arm_keeps_intent (arming armOk : Bool) (st : VehicleState) :
    (handle_arm arming armOk st).2.1.lastMethod = st.lastMethod ∧
    (handle_arm arming armOk st).2.1.lastData = st.lastData := by
  cases arming <;> cases armOk <;> cases h : st.armed <;>
    simp [handle_arm, status, h]

/-- Helper: the arm phase of a message never touches the stored motion
intent. -/
theorem armPhase_keeps_intent (armOk : Bool) (c : Command) (st : VehicleState) :
    (armPhase armOk c st).2.1.lastMethod = st.lastMethod ∧
    (armPhase armOk c st).2.1.lastData = st.lastData := by
  cases hc : c.arm with
  | none => simp [armPhase, hc]
  | some a => simp [armPhase, hc, handle_arm_keeps_intent]

/-- Helper: when `change_mode` returns (does not exit), it changes neither
the armed flag nor the stored motion intent. -/
theorem change_mode_preserves (table : List (String × Nat)) (m : String)
    (st st2 : VehicleState) (evs : List LinkEvent)
    (h : change_mode table m st = .ok (st2, evs)) :
    st2.armed = st.armed ∧ st2.lastMethod = st.lastMethod ∧
    st2.lastData = st.lastData := by
  unfold change_mode at h
  cases hl : List.lookup (pyUpper m) table with
  | none => rw [hl] at h; exact absurd h (by simp)
  | some id =>
    rw [hl] at h
    simp only [ExitOr.ok.injEq, Prod.mk.injEq] at h
    obtain ⟨h1, -⟩ := h
    subst h1
    exact ⟨rfl, rfl, rfl⟩

/-- Helper: when `handle_mode` returns (does not exit), it changes neither
the armed flag nor the stored motion intent. -/
theorem handle_mode_preserves (table : List (String × Nat)) (m : String)
    (st st2 : VehicleState) (evs : List LinkEvent)
    (h : handle_mode table m st = .ok (st2, evs)) :
    st2.armed = st.armed ∧ st2.lastMethod = st.lastMethod ∧
    st2.lastData = st.lastData := by
  unfold handle_mode at h
  by_cases hms : m ≠ (status st).1
  · rw [if_pos hms] at h
    exact change_mode_preserves table m st st2 evs h
  · rw [if_neg hms] at h
    simp only [ExitOr.ok.injEq, Prod.mk.injEq] at h
    obtain ⟨h1, -⟩ := h
    subst h1
    exact ⟨rfl, rfl, rfl⟩

/-- Helper: when the mode phase of a message returns (does not exit), it
changes neither the armed flag nor the stored motion intent. -/
theorem modePhase_preserves (table : List (String × Nat)) (c : Command)
    (st st2 : VehicleState) (evs : List LinkEvent)
    (h : modePhase table c st = .ok (st2, evs)) :
    st2.armed = st.armed ∧ st2.lastMethod = st.lastMethod ∧
    st2.lastData = st.lastData := by
  cases hc : c.mode with
  | none =>
    unfold modePhase at h
    rw [hc] at h
    simp only [ExitOr.ok.injEq, Prod.mk.injEq] at h
    obtain ⟨h1, -⟩ := h
    subst h1
    exact ⟨rfl, rfl, rfl⟩
  | some m =>
    unfold modePhase at h
    rw [hc] at h
    exact handle_mode_preserves table m st st2 evs h

/-- C7: the stored intent is replaced exactly when, after the arm
handling, the vehicle is armed and the command carries a `drive_method`
field — in that case it becomes the new (method, command) pair, otherwise
it is exactly the old one; and the link calls issued for the message are
the same as for the identical command without its `drive_method` field, so
the drive path issues no actuator call of its own. -/
theorem intent_replacement_iff (table : List (String × Nat)) (armOk : Bool)
    (thr : List Int) (c : Command) (st : VehicleState) (r : Reply)
    (st' : VehicleState) (evs : List LinkEvent)
    (h : processMessage table armOk thr (.valid c) st = .ok (r, st', evs)) :
    ((armAfter armOk c st).armed = true ∧ c.drive_method.isSome = true →
      st'.lastMethod = c.drive_method ∧ st'.lastData = some c) ∧
    (¬((armAfter armOk c st).armed = true ∧ c.drive_method.isSome = true) →
      st'.lastMethod = st.lastMethod ∧ st'.lastData = st.lastData) ∧
    (∃ (r2 : Reply) (st2 : VehicleState),
      processMessage table armOk thr
        (.valid { c with drive_method := none }) st = .ok (r2, st2, evs)) := by
  simp only [processMessage] at h
  cases hm : modePhase table c (armPhase armOk c st).2.1 with
  | exit n => rw [hm] at h; simp at h
  | ok p =>
    obtain ⟨st2, evs2⟩ := p
    rw [hm] at h
    simp only [ExitOr.ok.injEq, Prod.mk.injEq] at h
    obtain ⟨hr, hst, hevs⟩ := h
    have hpres := modePhase_preserves table c _ _ _ hm
    have hap := armPhase_keeps_intent armOk c st
    refine ⟨?_, ?_, ?_⟩
    · rintro ⟨ha, hd⟩
      subst hst
      have harmed : st2.armed = true := hpres.1.trans ha
      simp [storeIntent, status, harmed, hd]
    · intro hneg
      subst hst
      have hcond : ((status st2).2 && c.drive_method.isSome) = false := by
        have hA : st2.armed = (armAfter armOk c st).armed := hpres.1
        cases h1 : (armAfter armOk c st).armed <;>
          cases h2 : c.drive_method.isSome <;> simp_all [status]
      simp only [storeIntent, hcond, Bool.false_eq_true, if_false]
      exact ⟨hpres.2.1.trans hap.1, hpres.2.2.trans hap.2⟩
    · refine ⟨.statusReply true (armPhase armOk c st).1 (status st2).1
          (status st2).2 thr, st2, ?_⟩
      simp only [processMessage]
      rw [show modePhase table { c with drive_method := none }
            (armPhase armOk { c with drive_method := none } st).2.1 =
            .ok (st2, evs2) from hm]
      dsimp only
      rw [show storeIntent { c with drive_method := none } st2 = st2 by
            simp [storeIntent]]
      exact congrArg (fun l => ExitOr.ok (Reply.statusReply true
        (armPhase armOk c st).1 (status st2).1 (status st2).2 thr, st2, l)) hevs

/-- Concrete command used to witness C7: arm plus an rc_channels intent. -/
def c7cmd : Command :=
  { arm := some 1, drive_method := some "rc_channels", roll := some 1700 }

/-- The state reached from `initState` by processing `c7cmd`. -/
def c7st : VehicleState :=
  { armed := true, mode := "MANUAL", lastMethod := some "rc_channels",
    lastData := some c7cmd }

/-- The reply produced for `c7cmd` from `initState`. -/
def c7reply : Reply :=
  .statusReply true
    (some { armed := true, message := some "motors armed", error := none })
    "MANUAL" true []

/-- The link calls issued for `c7cmd` from `initState`. -/
def c7evs : List LinkEvent := [.rcFrame neutralFrame, .settle 100, .armCall]

/-- Witness for C7: processing the concrete arm-plus-rc_channels command
from the initial state. -/
theorem intent_replacement_iff_witness :
    ((armAfter true c7cmd initState).armed = true ∧
        c7cmd.drive_method.isSome = true →
      c7st.lastMethod = c7cmd.drive_method ∧ c7st.lastData = some c7cmd) ∧
    (¬((armAfter true c7cmd initState).armed = true ∧
        c7cmd.drive_method.isSome = true) →
      c7st.lastMethod = initState.lastMethod ∧
      c7st.lastData = initState.lastData) ∧
    (∃ (r2 : Reply) (st2 : VehicleState),
      processMessage [("MANUAL", 19)] true []
        (.valid { c7cmd with drive_method := none }) initState =
        .ok (r2, st2, c7evs)) :=
  intent_replacement_iff [("MANUAL", 19)] true [] c7cmd initState c7reply
    c7st c7evs (by decide)

/-- C8: an unparsable inbound message is answered with exactly the
invalid-JSON error reply, leaves the vehicle state (armed flag, mode and
stored intent) untouched and issues no link call; the session loop then
continues with the remaining messages exactly as if the malformed one had
not occurred, with the error reply prefixed. -/
theorem invalid_json_keeps_session (table : List (String × Nat))
    (armOk : Bool) (thr : List Int) (rest : List Inbound)
    (st : VehicleState) :
    processMessage table armOk thr .malformed st = .ok (.invalidJSON, st, []) ∧
    echoLoop table armOk thr (.malformed :: rest) st =
      (match echoLoop table armOk thr rest st with
       | .exit n => .exit n
       | .ok (rs, st2, evs) => .ok (.invalidJSON :: rs, st2, evs)) := by
  refine ⟨rfl, ?_⟩
  cases h : echoLoop table armOk thr rest st with
  | exit n => simp [echoLoop, processMessage, h]
  | ok p =>
    obtain ⟨rs, st2, evs⟩ := p
    simp [echoLoop, processMessage, h]

end TecXotic
